import Mathlib

/-!
Verification of the EC2 details extractor (get-ec2-details-json.py).

The script resolves EC2 instances by Name tag, enriches them with volume
metadata, and emits either a JSON artifact or a human-readable report.
We embed the pipeline shallowly: the two remote calls (describe_instances,
describe_volumes) are passed in as function parameters returning
`Except String _` (error = raised exception carrying its message), and the
run is instrumented to record the arguments of every describe_volumes
invocation and every printed message.
-/

set_option maxHeartbeats 1000000

namespace Ec2Details

/-- A volume as returned by the remote describe_volumes API. Optional fields
(Iops, Throughput, SnapshotId) model keys that may be absent from the
response dictionary. -/
structure Volume where
  volumeId : String
  size : Nat
  volumeType : String
  state : String
  encrypted : Bool
  iops : Option Nat
  throughput : Option Nat
  snapshotId : Option String
  availabilityZone : String
  createTime : String
deriving DecidableEq

/-- The per-volume record built by get_volume_details (source lines 39-49).
`none` in an optional field embeds the literal default value 'N/A'. -/
structure VolumeRecord where
  size : Nat
  volumeType : String
  state : String
  encrypted : Bool
  iops : Option Nat
  throughput : Option Nat
  snapshotId : Option String
  availabilityZone : String
  createTime : String
deriving DecidableEq

/-- The record stored under volume['VolumeId'] (source lines 39-49). -/
def volumeRecordOf (v : Volume) : VolumeRecord :=
  ⟨v.size, v.volumeType, v.state, v.encrypted, v.iops, v.throughput,
   v.snapshotId, v.availabilityZone, v.createTime⟩

/-- Python dict assignment d[k] = v: the new binding shadows any earlier one.
We keep the newest binding in front so that List.lookup sees it first. -/
def dictInsert (m : List (String × VolumeRecord)) (k : String) (v : VolumeRecord) :
    List (String × VolumeRecord) :=
  (k, v) :: m.filter (fun p => p.1 != k)

/-- get_volume_details (source lines 29-53): empty id list returns an empty
dict without a remote call; otherwise one batched describe_volumes call whose
failure is caught and degraded to an empty dict. The second component records
the argument lists of the describe_volumes invocations actually made. -/
def get_volume_details (describe_volumes : List String → Except String (List Volume))
    (volume_ids : List String) :
    List (String × VolumeRecord) × List (List String) :=
  if volume_ids.isEmpty then ([], [])
  else
    match describe_volumes volume_ids with
    | .error _ => ([], [volume_ids])
    | .ok vols =>
      (vols.foldl (fun m v => dictInsert m v.volumeId (volumeRecordOf v)) [], [volume_ids])

/-- The Ebs sub-dictionary of a block device mapping. -/
structure Ebs where
  volumeId : String
deriving DecidableEq

/-- One entry of instance['BlockDeviceMappings']; ebs = none embeds a mapping
without an 'Ebs' key (an ephemeral / instance-store attachment). -/
structure BlockDeviceMapping where
  deviceName : String
  ebs : Option Ebs
deriving DecidableEq

structure Tag where
  key : String
  value : String
deriving DecidableEq

structure SecurityGroup where
  groupName : String
  groupId : String
deriving DecidableEq

/-- An instance dictionary as returned by describe_instances, restricted to
the fields the script reads. Option fields embed keys that may be absent
(instance.get(...) in the source). volumeDetails is the core-owned
'VolumeDetails' entry, absent until the merge step writes it. -/
structure Instance where
  instanceId : String
  instanceType : String
  state : String
  launchTime : String
  architecture : String
  platform : Option String
  vpcId : String
  subnetId : String
  privateIpAddress : String
  publicIpAddress : Option String
  privateDnsName : String
  publicDnsName : Option String
  securityGroups : List SecurityGroup
  tags : Option (List Tag)
  blockDeviceMappings : List BlockDeviceMapping
  availabilityZone : String
  keyName : Option String
  volumeDetails : List (String × VolumeRecord)
deriving DecidableEq

/-- One reservation container of the describe_instances response. -/
structure Reservation where
  instances : List Instance
deriving DecidableEq

/-- One filter dictionary handed to describe_instances. -/
structure Filter where
  name : String
  values : List String
deriving DecidableEq

/-- The instance lifecycle states the query asks for (source lines 73-76). -/
def instanceStateFilterValues : List String :=
  ["running", "stopped", "stopping", "pending", "shutting-down"]

/-- The Filters argument built for describe_instances (source lines 67-78). -/
def describeInstancesFilters (server_name : String) : List Filter :=
  [⟨"tag:Name", [server_name]⟩,
   ⟨"instance-state-name", instanceStateFilterValues⟩]

/-- Semantics of the remote describe_instances filters, for the two filter
names the program uses: a tag:KEY filter matches when some tag with that key
has a value in the filter's value list; instance-state-name matches on the
instance state. This models the external API the spec treats as opaque. -/
def instanceMatchesFilter (inst : Instance) (f : Filter) : Bool :=
  if f.name = "tag:Name" then
    (inst.tags.getD []).any (fun t => t.key == "Name" && f.values.contains t.value)
  else if f.name = "instance-state-name" then
    f.values.contains inst.state
  else
    true

/-- An instance satisfies a describe_instances query when it matches every
filter (AWS conjunction semantics). -/
def instanceMatchesQuery (inst : Instance) (fs : List Filter) : Bool :=
  fs.all (instanceMatchesFilter inst)

/-- The nested loop over reservations (source lines 80-83). -/
def flattenReservations (reservations : List Reservation) : List Instance :=
  reservations.foldl (fun acc r => acc ++ r.instances) []

/-- The nested loop collecting all_volume_ids (source lines 94-98): one
occurrence per EBS-backed attachment, in instance order. -/
def collect_volume_ids (instances : List Instance) : List String :=
  instances.foldl (fun acc inst =>
    inst.blockDeviceMappings.foldl (fun acc2 bdm =>
      match bdm.ebs with
      | some e => acc2 ++ [e.volumeId]
      | none => acc2) acc) []

/-- One iteration of the inner merge loop (source lines 106-110): skip
mappings without an Ebs key, and copy the entry for an EBS-backed mapping
only when its volume id is present in volume_details. -/
def attachStep (volume_details : List (String × VolumeRecord))
    (vd : List (String × VolumeRecord)) (bdm : BlockDeviceMapping) :
    List (String × VolumeRecord) :=
  match bdm.ebs with
  | some e =>
    match volume_details.lookup e.volumeId with
    | some r => dictInsert vd e.volumeId r
    | none => vd
  | none => vd

/-- The per-instance body of the merge loop (source lines 104-110): start
from an empty VolumeDetails dict and add an entry for each EBS-backed
attachment whose volume id is present in volume_details. -/
def attachVolumeDetails (volume_details : List (String × VolumeRecord)) (inst : Instance) :
    Instance :=
  { inst with volumeDetails :=
      inst.blockDeviceMappings.foldl (attachStep volume_details) [] }

/-- The merge loop over all instances (source lines 104-110). -/
def merge (volume_details : List (String × VolumeRecord)) (instances : List Instance) :
    List Instance :=
  instances.map (attachVolumeDetails volume_details)

/-- The instrumented outcome of get_ec2_details: its return value, the
argument lists of the describe_volumes calls made, and the messages printed. -/
structure Ec2DetailsRun where
  result : Option (List Instance)
  volumeFetchCalls : List (List String)
  printed : List String
deriving DecidableEq

/-- get_ec2_details (source lines 56-116). query is the remote
describe_instances call as a function of the Filters argument; an Except
error is a raised exception, caught at lines 114-116. -/
def get_ec2_details (query : List Filter → Except String (List Reservation))
    (describe_volumes : List String → Except String (List Volume))
    (server_name : String) : Ec2DetailsRun :=
  match query (describeInstancesFilters server_name) with
  | .error e => ⟨none, [], ["Error retrieving EC2 details: " ++ e]⟩
  | .ok response =>
    let instances := flattenReservations response
    if instances.isEmpty then
      ⟨none, [], ["No EC2 instances found with name: " ++ server_name]⟩
    else
      let multiMsgs :=
        if instances.length > 1 then
          ["Found " ++ toString instances.length ++ " instances with name: " ++ server_name,
           "Showing details for all instances:"]
        else []
      let fetched := get_volume_details describe_volumes (collect_volume_ids instances)
      ⟨some (merge fetched.1 instances), fetched.2, multiMsgs⟩

/-- Python truthiness of instance.get(key): absent or empty string is falsy. -/
def truthyStr : Option String → Bool
  | some s => !s.isEmpty
  | none => false

/-- The separator line printed between numbered instance sections. -/
def sectionRule : String := String.mk (List.replicate 50 '=')

/-- Python bool rendering inside an f-string. -/
def pyBool (b : Bool) : String := if b then "True" else "False"

/-- The storage block for one block device mapping (source lines 162-191). -/
def formatStorageLine (inst : Instance) (bdm : BlockDeviceMapping) : List String :=
  match bdm.ebs with
  | some e =>
    match inst.volumeDetails.lookup e.volumeId with
    | some vinfo =>
      ["  " ++ bdm.deviceName ++ ": " ++ e.volumeId,
       "    Size: " ++ toString vinfo.size ++ " GB",
       "    Type: " ++ vinfo.volumeType,
       "    State: " ++ vinfo.state,
       "    Encrypted: " ++ pyBool vinfo.encrypted] ++
      (match vinfo.iops with
       | some n => ["    IOPS: " ++ toString n]
       | none => []) ++
      (match vinfo.throughput with
       | some n => ["    Throughput: " ++ toString n ++ " MB/s"]
       | none => [])
    | none => ["  " ++ bdm.deviceName ++ ": " ++ e.volumeId ++ " (details unavailable)"]
  | none => ["  " ++ bdm.deviceName ++ ": Instance store volume"]

/-- The lines printed for one instance by the body of the loop in
format_ec2_details (source lines 122-198); i is the 1-based position, total
the length of the whole list. A print of a string starting with a newline
contributes an empty line followed by the text. -/
def formatInstanceLines (i : Nat) (total : Nat) (inst : Instance) : List String :=
  (if total > 1 then
    ["", sectionRule, "INSTANCE " ++ toString i ++ " of " ++ toString total, sectionRule]
   else []) ++
  ["Instance ID: " ++ inst.instanceId,
   "Instance Type: " ++ inst.instanceType,
   "State: " ++ inst.state,
   "Launch Time: " ++ inst.launchTime,
   "Architecture: " ++ inst.architecture,
   "Platform: " ++ inst.platform.getD "Linux/Unix",
   "", "Network Details:",
   "  VPC ID: " ++ inst.vpcId,
   "  Subnet ID: " ++ inst.subnetId,
   "  Private IP: " ++ inst.privateIpAddress] ++
  (if truthyStr inst.publicIpAddress then
    ["  Public IP: " ++ inst.publicIpAddress.getD ""]
   else []) ++
  ["  Private DNS: " ++ inst.privateDnsName] ++
  (if truthyStr inst.publicDnsName then
    ["  Public DNS: " ++ inst.publicDnsName.getD ""]
   else []) ++
  ["", "Security Groups:"] ++
  inst.securityGroups.map (fun sg => "  - " ++ sg.groupName ++ " (" ++ sg.groupId ++ ")") ++
  ["", "Tags:"] ++
  (match inst.tags with
   | some ts => ts.map (fun t => "  " ++ t.key ++ ": " ++ t.value)
   | none => ["  No tags found"]) ++
  ["", "Storage:"] ++
  (inst.blockDeviceMappings.map (formatStorageLine inst)).flatten ++
  ["", "Availability Zone: " ++ inst.availabilityZone] ++
  (if truthyStr inst.keyName then ["Key Pair: " ++ inst.keyName.getD ""] else [])

/-- format_ec2_details (source lines 119-198): enumerate(instances, 1). -/
def format_ec2_details (instances : List Instance) : List String :=
  ((List.enumFrom 1 instances).map
    (fun p => formatInstanceLines p.1 instances.length p.2)).flatten

/-- json.dumps applied to a plain string value: the characters between the
added quotes, with JSON escaping of quote and backslash. -/
def jsonEscapeChar (c : Char) : String :=
  if c = '"' then "\\\"" else if c = '\\' then "\\\\" else String.singleton c

/-- json.dumps of a string value (the default=str serialization of a launch
time): the string wrapped in literal double quotes (source line 237). -/
def jsonDumpsString (s : String) : String :=
  "\"" ++ String.join (s.toList.map jsonEscapeChar) ++ "\""

/-- The parsed command-line arguments (source lines 203-209). -/
structure Args where
  server_name : String
  region : Option String
  output : Option String
  human : Bool
deriving DecidableEq

/-- The output_data object written as JSON (source lines 234-240). -/
structure OutputData where
  search_query : String
  region : String
  timestamp : Option String
  instance_count : Nat
  instances : List Instance
deriving DecidableEq

/-- The default output path (source lines 224-227). -/
def defaultOutputPath (server_name : String) : String :=
  "output/" ++ ((server_name.replace "/" "_").replace "\\" "_") ++ "_details.json"

/-- The observable outcome of one invocation of main: the artifact written
(path and content), the messages printed, and the describe_volumes calls
made. -/
structure MainOutcome where
  artifact : Option (String × OutputData)
  printed : List String
  volumeFetchCalls : List (List String)
deriving DecidableEq

/-- main (source lines 201-251), with the two remote calls passed in. -/
def main_run (query : List Filter → Except String (List Reservation))
    (describe_volumes : List String → Except String (List Volume))
    (args : Args) : MainOutcome :=
  let header :=
    ["Searching for EC2 instance: " ++ args.server_name] ++
    (if truthyStr args.region then ["Region: " ++ args.region.getD ""]
     else ["Region: ap-southeast-2 (default)"])
  let run := get_ec2_details query describe_volumes args.server_name
  match run.result with
  | none => ⟨none, header ++ run.printed, run.volumeFetchCalls⟩
  | some l =>
    if l.isEmpty then ⟨none, header ++ run.printed, run.volumeFetchCalls⟩
    else
      let outPath := if truthyStr args.output then args.output.getD ""
        else defaultOutputPath args.server_name
      if args.human then
        ⟨none, header ++ run.printed ++ format_ec2_details l, run.volumeFetchCalls⟩
      else
        let timestamp := match l with
          | [] => none
          | x :: _ => some (jsonDumpsString x.launchTime)
        let data : OutputData :=
          ⟨args.server_name,
           (if truthyStr args.region then args.region.getD "" else "ap-southeast-2"),
           timestamp, l.length, l⟩
        let summary := (List.enumFrom 1 l).map (fun p =>
          "  Instance " ++ toString p.1 ++ ": " ++ p.2.instanceId ++ " (" ++ p.2.state ++ ")")
        ⟨some (outPath, data),
         header ++ run.printed ++
           ["EC2 details written to: " ++ outPath,
            "Found " ++ toString l.length ++ " instance(s)"] ++ summary,
         run.volumeFetchCalls⟩

/-- Forget the core-owned VolumeDetails field, leaving only the
provider-supplied fields: used to state that merging alters nothing else. -/
def eraseVolumeDetails (inst : Instance) : Instance :=
  { inst with volumeDetails := [] }

/-! Concrete fixtures for examples: two instances that share volume vol-A,
stub remote endpoints, and runs of the pipeline on them. -/

/-- A concrete instance named web-01 with one EBS-backed attachment. -/
def webInstance : Instance :=
  ⟨"i-0a1b2c3d", "t3.micro", "running", "2024-01-01 00:00:00+00:00", "x86_64", none,
   "vpc-123", "subnet-456", "10.0.0.5", none, "ip-10-0-0-5.internal", none,
   [⟨"default", "sg-789"⟩], some [⟨"Name", "web-01"⟩],
   [⟨"/dev/sda1", some ⟨"vol-A"⟩⟩], "ap-southeast-2a", none, []⟩

/-- A second instance with the same name tag and the same attached volume. -/
def secondInstance : Instance :=
  { webInstance with instanceId := "i-0e5f6a7b" }

/-- The shared volume vol-A as returned by describe_volumes. -/
def volA : Volume :=
  ⟨"vol-A", 8, "gp3", "in-use", true, some 3000, some 125, none,
   "ap-southeast-2a", "2023-12-31 23:00:00+00:00"⟩

/-- A describe_instances stub: two reservations, one instance each. -/
def twoInstanceQuery : List Filter → Except String (List Reservation) :=
  fun _ => .ok [⟨[webInstance]⟩, ⟨[secondInstance]⟩]

/-- A describe_instances stub: one reservation with one instance. -/
def oneInstanceQuery : List Filter → Except String (List Reservation) :=
  fun _ => .ok [⟨[webInstance]⟩]

/-- A describe_instances stub matching nothing. -/
def emptyQuery : List Filter → Except String (List Reservation) :=
  fun _ => .ok []

/-- A describe_instances stub that raises. -/
def failingQuery : List Filter → Except String (List Reservation) :=
  fun _ => .error "AuthFailure"

/-- A describe_volumes stub returning vol-A. -/
def volAFetcher : List String → Except String (List Volume) :=
  fun _ => .ok [volA]

/-- A describe_volumes stub that raises on every call. -/
def failingFetcher : List String → Except String (List Volume) :=
  fun _ => .error "RequestLimitExceeded"

/-- The run on the two instances sharing vol-A. -/
def sharedVolumeRun : Ec2DetailsRun :=
  get_ec2_details twoInstanceQuery volAFetcher "web-01"

/-- A full invocation in structured (JSON) mode on the single instance. -/
def structuredOutcome : MainOutcome :=
  main_run oneInstanceQuery volAFetcher ⟨"web-01", none, some "out.json", false⟩

/-- An instance whose Tags key is present but holds an empty list. -/
def taggedEmptyInstance : Instance :=
  { webInstance with tags := some [] }

/-- An instance without a Tags key. -/
def untaggedInstance : Instance :=
  { webInstance with tags := none }

/-- webInstance after merge has resolved vol-A in its VolumeDetails. -/
def enrichedWebInstance : Instance :=
  { webInstance with volumeDetails := [("vol-A", volumeRecordOf volA)] }

/-- True when some block device mapping of the list is EBS-backed with
volume id v. -/
def ebsReferences (bdms : List BlockDeviceMapping) (v : String) : Bool :=
  bdms.any fun b => b.ebs == some ⟨v⟩

/-! Helper lemmas about dict lookup and the merge fold. -/

theorem lookup_cons_self (k : String) (v : VolumeRecord)
    (t : List (String × VolumeRecord)) : List.lookup k ((k, v) :: t) = some v := by
  simp [List.lookup]

theorem lookup_cons_ne (k k' : String) (v : VolumeRecord)
    (t : List (String × VolumeRecord)) (h : k' ≠ k) :
    List.lookup k' ((k, v) :: t) = List.lookup k' t := by
  have hne : (k' == k) = false := by simp [h]
  simp [List.lookup, hne]

theorem lookup_dictInsert_self (m : List (String × VolumeRecord)) (k : String)
    (v : VolumeRecord) : (dictInsert m k v).lookup k = some v := by
  simp [dictInsert, List.lookup]

theorem lookup_filter_ne (m : List (String × VolumeRecord)) (k k' : String) (h : k' ≠ k) :
    (m.filter (fun p => p.1 != k)).lookup k' = m.lookup k' := by
  induction m with
  | nil => simp
  | cons p t ih =>
    obtain ⟨pk, pv⟩ := p
    rw [List.filter_cons]
    by_cases hp : pk = k
    · have h1 : ((pk, pv).1 != k) = false := by simp [hp]
      rw [h1]
      simp only [Bool.false_eq_true, if_false]
      rw [ih, lookup_cons_ne _ _ _ _ (by simpa [hp] using h)]
    · have h1 : ((pk, pv).1 != k) = true := by simp [hp]
      rw [h1]
      simp only [if_true]
      by_cases hk' : k' = pk
      · subst hk'
        rw [lookup_cons_self, lookup_cons_self]
      · rw [lookup_cons_ne _ _ _ _ hk', lookup_cons_ne _ _ _ _ hk', ih]

theorem lookup_dictInsert_ne (m : List (String × VolumeRecord)) (k k' : String)
    (v : VolumeRecord) (h : k' ≠ k) : (dictInsert m k v).lookup k' = m.lookup k' := by
  rw [dictInsert, lookup_cons_ne _ _ _ _ h, lookup_filter_ne m k k' h]

/-- Lookup after the inner merge fold: the result holds an entry for v
exactly when some block device mapping is EBS-backed with volume id v and
volume_details resolves v; otherwise the accumulator is untouched at v. -/
theorem lookup_foldl_attachStep (volume_details : List (String × VolumeRecord))
    (v : String) (bdms : List BlockDeviceMapping) :
    ∀ acc : List (String × VolumeRecord),
    (bdms.foldl (attachStep volume_details) acc).lookup v =
      if ebsReferences bdms v && (volume_details.lookup v).isSome then
        volume_details.lookup v
      else acc.lookup v := by
  induction bdms with
  | nil => intro acc; simp [ebsReferences]
  | cons b bs ih =>
    intro acc
    rw [List.foldl_cons]
    cases hb : b.ebs with
    | none =>
      have hstep : attachStep volume_details acc b = acc := by
        simp [attachStep, hb]
      have hcond : ebsReferences (b :: bs) v = ebsReferences bs v := by
        simp [ebsReferences, hb]
      rw [hstep, ih, hcond]
    | some e =>
      obtain ⟨ev⟩ := e
      by_cases hev : ev = v
      · subst hev
        cases hl : volume_details.lookup ev with
        | none =>
          have hstep : attachStep volume_details acc b = acc := by
            simp [attachStep, hb, hl]
          rw [hstep, ih, hl]
          simp
        | some r =>
          have hstep : attachStep volume_details acc b = dictInsert acc ev r := by
            simp [attachStep, hb, hl]
          have hcond : ebsReferences (b :: bs) ev = true := by
            simp [ebsReferences, hb]
          rw [hstep, ih, hcond, hl]
          cases hbs : ebsReferences bs ev with
          | true => simp [hbs]
          | false => simp [hbs, lookup_dictInsert_self]
      · have hcond : ebsReferences (b :: bs) v = ebsReferences bs v := by
          simp [ebsReferences, hb, hev]
        have hstep : (attachStep volume_details acc b).lookup v = acc.lookup v := by
          simp only [attachStep, hb]
          cases hl : volume_details.lookup ev with
          | none => rfl
          | some r => exact lookup_dictInsert_ne acc ev v r (fun hh => hev hh.symm)
        rw [ih, hstep, hcond]

/-- Lookup into the VolumeDetails dict built for one instance. -/
theorem lookup_attachVolumeDetails (volume_details : List (String × VolumeRecord))
    (inst : Instance) (v : String) :
    (attachVolumeDetails volume_details inst).volumeDetails.lookup v =
      if ebsReferences inst.blockDeviceMappings v && (volume_details.lookup v).isSome then
        volume_details.lookup v
      else none := by
  show (inst.blockDeviceMappings.foldl (attachStep volume_details) []).lookup v = _
  rw [lookup_foldl_attachStep]
  rfl

/-- With an empty volume dict the merge fold leaves the accumulator alone. -/
theorem foldl_attachStep_nil (bdms : List BlockDeviceMapping) :
    ∀ acc, bdms.foldl (attachStep ([] : List (String × VolumeRecord))) acc = acc := by
  induction bdms with
  | nil => intro acc; rfl
  | cons b bs ih =>
    intro acc
    rw [List.foldl_cons]
    have hstep : attachStep [] acc b = acc := by
      cases hb : b.ebs <;> simp [attachStep, hb, List.lookup]
    rw [hstep, ih]

/-- Merging alters only the VolumeDetails field of an instance. -/
theorem eraseVolumeDetails_attach (volume_details : List (String × VolumeRecord))
    (inst : Instance) :
    eraseVolumeDetails (attachVolumeDetails volume_details inst) = eraseVolumeDetails inst := rfl

/-- Unfolding a run in which the resolve call raised. -/
theorem get_ec2_details_of_error (query : List Filter → Except String (List Reservation))
    (dv : List String → Except String (List Volume)) (n : String) (e : String)
    (h : query (describeInstancesFilters n) = .error e) :
    get_ec2_details query dv n = ⟨none, [], ["Error retrieving EC2 details: " ++ e]⟩ := by
  unfold get_ec2_details
  rw [h]

/-- Unfolding a run in which the resolve call matched nothing. -/
theorem get_ec2_details_of_empty (query : List Filter → Except String (List Reservation))
    (dv : List String → Except String (List Volume)) (n : String) (resp : List Reservation)
    (h : query (describeInstancesFilters n) = .ok resp)
    (hempty : flattenReservations resp = []) :
    get_ec2_details query dv n = ⟨none, [], ["No EC2 instances found with name: " ++ n]⟩ := by
  unfold get_ec2_details
  rw [h]
  simp [hempty]

/-- Unfolding a run in which the resolve call matched at least one instance. -/
theorem get_ec2_details_of_matches (query : List Filter → Except String (List Reservation))
    (dv : List String → Except String (List Volume)) (n : String) (resp : List Reservation)
    (h : query (describeInstancesFilters n) = .ok resp)
    (hne : flattenReservations resp ≠ []) :
    get_ec2_details query dv n =
      ⟨some (merge (get_volume_details dv (collect_volume_ids (flattenReservations resp))).1
          (flattenReservations resp)),
       (get_volume_details dv (collect_volume_ids (flattenReservations resp))).2,
       if (flattenReservations resp).length > 1 then
         ["Found " ++ toString (flattenReservations resp).length ++ " instances with name: " ++ n,
          "Showing details for all instances:"]
       else []⟩ := by
  unfold get_ec2_details
  rw [h]
  have : (flattenReservations resp).isEmpty = false := by
    simpa [List.isEmpty_iff] using hne
  simp [this]

/-- C4: when the resolve step matches zero instances the run reports the
not-found condition without raising, makes no volume fetch, produces no
merged result, and the invocation writes no output artifact. -/
theorem zero_matches_short_circuit
    (query : List Filter → Except String (List Reservation))
    (dv : List String → Except String (List Volume)) (args : Args)
    (resp : List Reservation)
    (h : query (describeInstancesFilters args.server_name) = .ok resp)
    (hempty : flattenReservations resp = []) :
    (get_ec2_details query dv args.server_name).result = none
    ∧ (get_ec2_details query dv args.server_name).volumeFetchCalls = []
    ∧ (get_ec2_details query dv args.server_name).printed
        = ["No EC2 instances found with name: " ++ args.server_name]
    ∧ (main_run query dv args).artifact = none := by
  have hrun := get_ec2_details_of_empty query dv args.server_name resp h hempty
  refine ⟨by rw [hrun], by rw [hrun], by rw [hrun], ?_⟩
  unfold main_run
  rw [hrun]

/-- C4 witness: a concrete run with an empty describe_instances response. -/
theorem zero_matches_short_circuit_witness :
    (get_ec2_details emptyQuery volAFetcher "web-01").result = none
    ∧ (get_ec2_details emptyQuery volAFetcher "web-01").volumeFetchCalls = []
    ∧ (get_ec2_details emptyQuery volAFetcher "web-01").printed
        = ["No EC2 instances found with name: web-01"]
    ∧ (main_run emptyQuery volAFetcher ⟨"web-01", none, some "out.json", false⟩).artifact
        = none :=
  zero_matches_short_circuit emptyQuery volAFetcher ⟨"web-01", none, some "out.json", false⟩
    [] rfl rfl

/-- C5: a failure raised by the resolve call is terminal: the run returns no
instance list, makes no volume fetch, prints the error message, and the
invocation writes no output artifact. -/
theorem resolve_failure_terminal
    (query : List Filter → Except String (List Reservation))
    (dv : List String → Except String (List Volume)) (args : Args) (e : String)
    (h : query (describeInstancesFilters args.server_name) = .error e) :
    (get_ec2_details query dv args.server_name).result = none
    ∧ (get_ec2_details query dv args.server_name).volumeFetchCalls = []
    ∧ (get_ec2_details query dv args.server_name).printed
        = ["Error retrieving EC2 details: " ++ e]
    ∧ (main_run query dv args).artifact = none := by
  have hrun := get_ec2_details_of_error query dv args.server_name e h
  refine ⟨by rw [hrun], by rw [hrun], by rw [hrun], ?_⟩
  unfold main_run
  rw [hrun]

/-- C5 witness: a concrete run whose describe_instances call raises. -/
theorem resolve_failure_terminal_witness :
    (get_ec2_details failingQuery volAFetcher "web-01").result = none
    ∧ (get_ec2_details failingQuery volAFetcher "web-01").volumeFetchCalls = []
    ∧ (get_ec2_details failingQuery volAFetcher "web-01").printed
        = ["Error retrieving EC2 details: AuthFailure"]
    ∧ (main_run failingQuery volAFetcher ⟨"web-01", none, some "out.json", false⟩).artifact
        = none :=
  resolve_failure_terminal failingQuery volAFetcher ⟨"web-01", none, some "out.json", false⟩
    "AuthFailure" rfl

/-- C3: if the batched volume query fails entirely, the fetcher returns an
empty mapping and the merge still yields one record per matched instance,
each with an empty VolumeDetails mapping; everything stays total, so no
exception escapes the merger. -/
theorem fetch_failure_degrades
    (query : List Filter → Except String (List Reservation))
    (dv : List String → Except String (List Volume)) (n : String)
    (resp : List Reservation) (msg : String)
    (h : query (describeInstancesFilters n) = .ok resp)
    (hne : flattenReservations resp ≠ [])
    (hfail : dv (collect_volume_ids (flattenReservations resp)) = .error msg) :
    (get_volume_details dv (collect_volume_ids (flattenReservations resp))).1 = []
    ∧ ∃ l, (get_ec2_details query dv n).result = some l
      ∧ l.length = (flattenReservations resp).length
      ∧ ∀ m ∈ l, m.volumeDetails = [] := by
  have hvd : (get_volume_details dv (collect_volume_ids (flattenReservations resp))).1 = [] := by
    unfold get_volume_details
    by_cases hids : (collect_volume_ids (flattenReservations resp)).isEmpty
    · simp [hids]
    · simp [hids, hfail]
  refine ⟨hvd, merge [] (flattenReservations resp), ?_, ?_, ?_⟩
  · rw [get_ec2_details_of_matches query dv n resp h hne, hvd]
  · simp [merge]
  · intro m hm
    rw [merge] at hm
    obtain ⟨inst, _, rfl⟩ := List.mem_map.mp hm
    show inst.blockDeviceMappings.foldl (attachStep []) [] = []
    exact foldl_attachStep_nil inst.blockDeviceMappings []

/-- C3 witness: the concrete two-instance run with a failing volume fetch. -/
theorem fetch_failure_degrades_witness :
    (get_volume_details failingFetcher
      (collect_volume_ids (flattenReservations [⟨[webInstance]⟩, ⟨[secondInstance]⟩]))).1 = []
    ∧ ∃ l, (get_ec2_details twoInstanceQuery failingFetcher "web-01").result = some l
      ∧ l.length = (flattenReservations [⟨[webInstance]⟩, ⟨[secondInstance]⟩]).length
      ∧ ∀ m ∈ l, m.volumeDetails = [] :=
  fetch_failure_degrades twoInstanceQuery failingFetcher "web-01"
    [⟨[webInstance]⟩, ⟨[secondInstance]⟩] "RequestLimitExceeded" rfl (by decide) rfl

/-- C6: in the merged output, an EBS-backed attachment whose volume id is in
the fetched mapping yields exactly that entry in VolumeDetails; an id absent
from the mapping yields no entry; attachments (including ephemeral ones) are
passed through unchanged; so VolumeDetails holds only resolved volumes. -/
theorem merged_volume_details_characterization
    (volume_details : List (String × VolumeRecord)) (instances : List Instance) :
    merge volume_details instances = instances.map (attachVolumeDetails volume_details)
    ∧ ∀ inst ∈ instances,
        (attachVolumeDetails volume_details inst).blockDeviceMappings
            = inst.blockDeviceMappings
        ∧ ∀ v r, ((attachVolumeDetails volume_details inst).volumeDetails.lookup v = some r ↔
            (∃ b ∈ inst.blockDeviceMappings, b.ebs = some ⟨v⟩)
              ∧ volume_details.lookup v = some r) := by
  refine ⟨rfl, ?_⟩
  intro inst _
  refine ⟨rfl, fun v r => ?_⟩
  rw [lookup_attachVolumeDetails]
  have hrefs : ebsReferences inst.blockDeviceMappings v = true ↔
      ∃ b ∈ inst.blockDeviceMappings, b.ebs = some ⟨v⟩ := by
    simp [ebsReferences]
  cases hc : (ebsReferences inst.blockDeviceMappings v
      && (volume_details.lookup v).isSome) with
  | true =>
    obtain ⟨h1, h2⟩ := Bool.and_eq_true_iff.mp hc
    simp only [if_true]
    exact ⟨fun hl => ⟨hrefs.mp h1, hl⟩, fun hh => hh.2⟩
  | false =>
    simp only [Bool.false_eq_true, if_false]
    constructor
    · intro hl; cases hl
    · rintro ⟨⟨b, hbmem, hbe⟩, hlk⟩
      have h1 : ebsReferences inst.blockDeviceMappings v = true := hrefs.mpr ⟨b, hbmem, hbe⟩
      have h2 : (volume_details.lookup v).isSome = true := by rw [hlk]; rfl
      rw [h1, h2] at hc
      cases hc

/-- C6 witness: the shared volume resolves for the concrete instance. -/
theorem merged_volume_details_witness :
    (attachVolumeDetails [("vol-A", volumeRecordOf volA)] webInstance).volumeDetails.lookup
        "vol-A" = some (volumeRecordOf volA) :=
  (((merged_volume_details_characterization [("vol-A", volumeRecordOf volA)]
      [webInstance]).2 webInstance (by decide)).2 "vol-A" (volumeRecordOf volA)).mpr
    ⟨⟨⟨"/dev/sda1", some ⟨"vol-A"⟩⟩, by decide, rfl⟩, by decide⟩

/-- The resolver's reservation loop is a flattening. -/
theorem flattenReservations_eq (rs : List Reservation) :
    flattenReservations rs = (rs.map Reservation.instances).flatten := by
  suffices h : ∀ acc, rs.foldl (fun acc r => acc ++ r.instances) acc
      = acc ++ (rs.map Reservation.instances).flatten by
    simpa using h []
  induction rs with
  | nil => intro acc; simp
  | cons r t ih => intro acc; simp [List.foldl_cons, ih]

/-- The volume-id collection loop lists one id per EBS-backed attachment,
in attachment order, instance by instance. -/
theorem collect_volume_ids_eq (l : List Instance) :
    collect_volume_ids l = (l.map fun i =>
      i.blockDeviceMappings.filterMap fun b => b.ebs.map Ebs.volumeId).flatten := by
  have inner : ∀ (bdms : List BlockDeviceMapping) (acc : List String),
      bdms.foldl (fun acc2 bdm => match bdm.ebs with
        | some e => acc2 ++ [e.volumeId]
        | none => acc2) acc
        = acc ++ bdms.filterMap (fun b => b.ebs.map Ebs.volumeId) := by
    intro bdms
    induction bdms with
    | nil => intro acc; simp
    | cons b bs ih =>
      intro acc
      cases hb : b.ebs with
      | none => simp [List.foldl_cons, hb, ih, List.filterMap_cons]
      | some e => simp [List.foldl_cons, hb, ih, List.filterMap_cons]
  suffices h : ∀ acc, l.foldl (fun acc inst =>
      inst.blockDeviceMappings.foldl (fun acc2 bdm => match bdm.ebs with
        | some e => acc2 ++ [e.volumeId]
        | none => acc2) acc) acc
      = acc ++ (l.map fun i =>
          i.blockDeviceMappings.filterMap fun b => b.ebs.map Ebs.volumeId).flatten by
    simpa [collect_volume_ids] using h []
  induction l with
  | nil => intro acc; simp
  | cons i t ih =>
    intro acc
    rw [List.foldl_cons, ih, inner]
    simp

/-- C7: the resolver flattens however the remote API groups instances into
reservations, and the API order survives the merge (field-for-field, only
VolumeDetails is added) and the assembly (the artifact's instances are
exactly the merged sequence). -/
theorem flatten_and_order_preserved
    (query : List Filter → Except String (List Reservation))
    (dv : List String → Except String (List Volume)) (n : String)
    (resp : List Reservation)
    (h : query (describeInstancesFilters n) = .ok resp)
    (hne : flattenReservations resp ≠ []) :
    flattenReservations resp = (resp.map Reservation.instances).flatten
    ∧ (get_ec2_details query dv n).result =
        some (merge (get_volume_details dv (collect_volume_ids (flattenReservations resp))).1
          (flattenReservations resp))
    ∧ (∀ vd l, (merge vd l).map eraseVolumeDetails = l.map eraseVolumeDetails)
    ∧ (∀ q2 dv2 args p data, (main_run q2 dv2 args).artifact = some (p, data) →
        (get_ec2_details q2 dv2 args.server_name).result = some data.instances) := by
  refine ⟨flattenReservations_eq resp, ?_, ?_, ?_⟩
  · rw [get_ec2_details_of_matches query dv n resp h hne]
  · intro vd l
    rw [merge, List.map_map]
    rfl
  · intro q2 dv2 args p data hart
    rcases hrun : get_ec2_details q2 dv2 args.server_name with ⟨res, calls, pr⟩
    unfold main_run at hart
    rw [hrun] at hart
    cases res with
    | none => simp at hart
    | some l =>
      show some l = some data.instances
      by_cases hl : l.isEmpty
      · simp [hl] at hart
      · by_cases hh : args.human
        · simp [hl, hh] at hart
        · cases l with
          | nil => simp at hl
          | cons x rest =>
            have hart2 := by simpa [hh] using hart
            rw [← hart2.2]

/-- C7 witness: the concrete two-reservation run. -/
theorem flatten_and_order_preserved_witness :
    flattenReservations [⟨[webInstance]⟩, ⟨[secondInstance]⟩]
        = (([⟨[webInstance]⟩, ⟨[secondInstance]⟩] : List Reservation).map
            Reservation.instances).flatten
    ∧ (get_ec2_details twoInstanceQuery volAFetcher "web-01").result =
        some (merge (get_volume_details volAFetcher
            (collect_volume_ids (flattenReservations [⟨[webInstance]⟩, ⟨[secondInstance]⟩]))).1
          (flattenReservations [⟨[webInstance]⟩, ⟨[secondInstance]⟩]))
    ∧ (∀ vd l, (merge vd l).map eraseVolumeDetails = l.map eraseVolumeDetails)
    ∧ (∀ q2 dv2 args p data, (main_run q2 dv2 args).artifact = some (p, data) →
        (get_ec2_details q2 dv2 args.server_name).result = some data.instances) :=
  flatten_and_order_preserved twoInstanceQuery volAFetcher "web-01"
    [⟨[webInstance]⟩, ⟨[secondInstance]⟩] rfl (by decide)

/-- C8: the resolve query is built from exactly two filters — an exact
tag:Name match and a lifecycle-state whitelist — so any instance matching
the query has the requested Name tag value and a state in the whitelist; in
particular terminated instances never match. -/
theorem query_filters_exact_name_and_live_states (server_name : String) (inst : Instance)
    (h : instanceMatchesQuery inst (describeInstancesFilters server_name) = true) :
    describeInstancesFilters server_name
        = [⟨"tag:Name", [server_name]⟩,
           ⟨"instance-state-name",
            ["running", "stopped", "stopping", "pending", "shutting-down"]⟩]
    ∧ (∃ ts, inst.tags = some ts ∧ ∃ t ∈ ts, t.key = "Name" ∧ t.value = server_name)
    ∧ inst.state ∈ ["running", "stopped", "stopping", "pending", "shutting-down"]
    ∧ inst.state ≠ "terminated" := by
  have hq : instanceMatchesFilter inst ⟨"tag:Name", [server_name]⟩ = true
      ∧ instanceMatchesFilter inst ⟨"instance-state-name", instanceStateFilterValues⟩
        = true := by
    simpa [instanceMatchesQuery, describeInstancesFilters] using h
  have hstate : inst.state ∈ instanceStateFilterValues := by
    have h2 := hq.2
    simp only [instanceMatchesFilter] at h2
    simpa using h2
  refine ⟨rfl, ?_, hstate, ?_⟩
  · have htag := hq.1
    simp only [instanceMatchesFilter, if_true] at htag
    revert htag
    cases hts : inst.tags with
    | none => intro htag; simp at htag
    | some ts =>
      intro htag
      simp only [Option.getD_some, List.any_eq_true] at htag
      obtain ⟨t, htmem, htkv⟩ := htag
      obtain ⟨hk, hv⟩ := Bool.and_eq_true_iff.mp htkv
      refine ⟨ts, rfl, t, htmem, by simpa using hk, ?_⟩
      have hvm : t.value ∈ [server_name] := by simpa using hv
      simpa using hvm
  · intro hterm
    rw [hterm] at hstate
    exact absurd hstate (by decide)

/-- C8 witness: the concrete running instance matches the query for its
name, and the conclusions hold for it. -/
theorem query_filters_witness :
    describeInstancesFilters "web-01"
        = [⟨"tag:Name", ["web-01"]⟩,
           ⟨"instance-state-name",
            ["running", "stopped", "stopping", "pending", "shutting-down"]⟩]
    ∧ (∃ ts, webInstance.tags = some ts ∧ ∃ t ∈ ts, t.key = "Name" ∧ t.value = "web-01")
    ∧ webInstance.state ∈ ["running", "stopped", "stopping", "pending", "shutting-down"]
    ∧ webInstance.state ≠ "terminated" :=
  query_filters_exact_name_and_live_states "web-01" webInstance (by decide)

/-- The fetcher makes exactly one describe_volumes call unless the id list
is empty, in which case it makes none. -/
theorem get_volume_details_calls (dv : List String → Except String (List Volume))
    (ids : List String) :
    (get_volume_details dv ids).2 = if ids.isEmpty then [] else [ids] := by
  unfold get_volume_details
  by_cases hids : ids.isEmpty
  · simp [hids]
  · cases hdv : dv ids <;> simp [hids, hdv]

/-- C1 counterexample: two matched instances share volume vol-A, yet the
describe_volumes call receives the identifier twice — the id list is not
deduplicated before the fetch, contradicting the claim that the fetch is
invoked with a shared identifier exactly once. -/
theorem shared_volume_not_deduplicated_counterexample :
    webInstance.blockDeviceMappings = [⟨"/dev/sda1", some ⟨"vol-A"⟩⟩]
    ∧ secondInstance.blockDeviceMappings = [⟨"/dev/sda1", some ⟨"vol-A"⟩⟩]
    ∧ webInstance.instanceId ≠ secondInstance.instanceId
    ∧ sharedVolumeRun.volumeFetchCalls = [["vol-A", "vol-A"]]
    ∧ sharedVolumeRun.volumeFetchCalls.flatten.count "vol-A" = 2
    ∧ ¬ sharedVolumeRun.volumeFetchCalls.flatten.count "vol-A" = 1 := by decide

/-- C1 amended: volume ids are not deduplicated — the single batched
describe_volumes call receives one id occurrence per EBS-backed attachment
across all matched instances — but at most one fetch call is made per run,
and any two merged records holding an entry for the same volume id hold
equal VolumeRecord content. -/
theorem shared_volume_single_fetch_equal_content
    (query : List Filter → Except String (List Reservation))
    (dv : List String → Except String (List Volume)) (n : String)
    (resp : List Reservation)
    (h : query (describeInstancesFilters n) = .ok resp)
    (hne : flattenReservations resp ≠ []) :
    (get_ec2_details query dv n).volumeFetchCalls =
      (if (collect_volume_ids (flattenReservations resp)).isEmpty then []
       else [collect_volume_ids (flattenReservations resp)])
    ∧ collect_volume_ids (flattenReservations resp)
        = ((flattenReservations resp).map fun i =>
            i.blockDeviceMappings.filterMap fun b => b.ebs.map Ebs.volumeId).flatten
    ∧ ∀ l, (get_ec2_details query dv n).result = some l →
        ∀ i1 ∈ l, ∀ i2 ∈ l, ∀ v r1 r2,
          i1.volumeDetails.lookup v = some r1 →
          i2.volumeDetails.lookup v = some r2 → r1 = r2 := by
  rw [get_ec2_details_of_matches query dv n resp h hne]
  refine ⟨get_volume_details_calls dv _, collect_volume_ids_eq _, ?_⟩
  intro l hl i1 h1 i2 h2 v r1 r2 hr1 hr2
  have hlm : merge (get_volume_details dv
      (collect_volume_ids (flattenReservations resp))).1 (flattenReservations resp) = l := by
    simpa using hl
  rw [← hlm, merge] at h1 h2
  obtain ⟨inst1, _, rfl⟩ := List.mem_map.mp h1
  obtain ⟨inst2, _, rfl⟩ := List.mem_map.mp h2
  rw [lookup_attachVolumeDetails] at hr1 hr2
  rcases ite_eq_iff.mp hr1 with ⟨-, hv1⟩ | ⟨-, hv1⟩
  · rcases ite_eq_iff.mp hr2 with ⟨-, hv2⟩ | ⟨-, hv2⟩
    · rw [hv1] at hv2; exact Option.some.inj hv2
    · cases hv2
  · cases hv1

/-- C1 witness: the concrete two-instance run sharing vol-A. -/
theorem shared_volume_single_fetch_witness :
    (get_ec2_details twoInstanceQuery volAFetcher "web-01").volumeFetchCalls =
      (if (collect_volume_ids
            (flattenReservations [⟨[webInstance]⟩, ⟨[secondInstance]⟩])).isEmpty then []
       else [collect_volume_ids (flattenReservations [⟨[webInstance]⟩, ⟨[secondInstance]⟩])])
    ∧ collect_volume_ids (flattenReservations [⟨[webInstance]⟩, ⟨[secondInstance]⟩])
        = ((flattenReservations [⟨[webInstance]⟩, ⟨[secondInstance]⟩]).map fun i =>
            i.blockDeviceMappings.filterMap fun b => b.ebs.map Ebs.volumeId).flatten
    ∧ ∀ l, (get_ec2_details twoInstanceQuery volAFetcher "web-01").result = some l →
        ∀ i1 ∈ l, ∀ i2 ∈ l, ∀ v r1 r2,
          i1.volumeDetails.lookup v = some r1 →
          i2.volumeDetails.lookup v = some r2 → r1 = r2 :=
  shared_volume_single_fetch_equal_content twoInstanceQuery volAFetcher "web-01"
    [⟨[webInstance]⟩, ⟨[secondInstance]⟩] rfl (by decide)

/-- Unfolding the structured-output branch of main: at least one matched
instance and human mode off. -/
theorem main_run_artifact_structured
    (query : List Filter → Except String (List Reservation))
    (dv : List String → Except String (List Volume)) (args : Args)
    (x : Instance) (rest : List Instance)
    (hres : (get_ec2_details query dv args.server_name).result = some (x :: rest))
    (hhuman : args.human = false) :
    (main_run query dv args).artifact =
      some ((if truthyStr args.output then args.output.getD ""
             else defaultOutputPath args.server_name),
        ⟨args.server_name,
         (if truthyStr args.region then args.region.getD "" else "ap-southeast-2"),
         some (jsonDumpsString x.launchTime), (x :: rest).length, x :: rest⟩) := by
  rcases hrun : get_ec2_details query dv args.server_name with ⟨res, calls, pr⟩
  rw [hrun] at hres
  have hres2 : res = some (x :: rest) := hres
  subst hres2
  unfold main_run
  rw [hrun]
  simp [hhuman]

/-- C2 counterexample: a single matched instance; the artifact's
instance_count and instances fields are as claimed, but its timestamp is
the JSON-quoted serialization of the launch time, not the launch time
itself. -/
theorem timestamp_not_launch_time_counterexample :
    (structuredOutcome.artifact.map fun pd => pd.2.instance_count) = some 1
    ∧ (structuredOutcome.artifact.map fun pd => pd.2.instances.map Instance.launchTime)
        = some ["2024-01-01 00:00:00+00:00"]
    ∧ (structuredOutcome.artifact.map fun pd => pd.2.timestamp)
        = some (some "\"2024-01-01 00:00:00+00:00\"")
    ∧ ¬ (structuredOutcome.artifact.map fun pd => pd.2.timestamp)
        = some (some "2024-01-01 00:00:00+00:00") := by decide

/-- C2 amended: for every non-empty matched sequence in structured mode the
artifact sets search_query to the name, instance_count to the number of
matched instances and instances to the enriched sequence, while timestamp
is the JSON string serialization (wrapped in literal quotes) of the first
matched instance's launch time rather than the launch time itself. -/
theorem structured_output_fields
    (query : List Filter → Except String (List Reservation))
    (dv : List String → Except String (List Volume)) (args : Args)
    (x : Instance) (rest : List Instance)
    (hres : (get_ec2_details query dv args.server_name).result = some (x :: rest))
    (hhuman : args.human = false) :
    ∃ p data, (main_run query dv args).artifact = some (p, data)
      ∧ data.search_query = args.server_name
      ∧ data.instance_count = (x :: rest).length
      ∧ data.instances = x :: rest
      ∧ data.timestamp = some (jsonDumpsString x.launchTime) :=
  ⟨_, _, main_run_artifact_structured query dv args x rest hres hhuman,
   rfl, rfl, rfl, rfl⟩

/-- C2 witness: the concrete single-instance structured run. -/
theorem structured_output_fields_witness :
    ∃ p data,
      (main_run oneInstanceQuery volAFetcher
          ⟨"web-01", none, some "out.json", false⟩).artifact = some (p, data)
      ∧ data.search_query = "web-01"
      ∧ data.instance_count = ([enrichedWebInstance] : List Instance).length
      ∧ data.instances = [enrichedWebInstance]
      ∧ data.timestamp = some (jsonDumpsString enrichedWebInstance.launchTime) :=
  structured_output_fields oneInstanceQuery volAFetcher
    ⟨"web-01", none, some "out.json", false⟩ enrichedWebInstance [] (by decide) rfl

/-- A line printed for a member instance at any position appears in the
whole rendering. -/
theorem mem_flatten_enumFrom (line : String) (inst : Instance)
    (hline : ∀ i total, line ∈ formatInstanceLines i total inst) :
    ∀ (l : List Instance) (n total : Nat), inst ∈ l →
      line ∈ ((List.enumFrom n l).map fun p => formatInstanceLines p.1 total p.2).flatten := by
  intro l
  induction l with
  | nil => intro n total hmem; cases hmem
  | cons a t ih =>
    intro n total hmem
    simp only [List.enumFrom, List.map_cons, List.flatten_cons]
    rcases List.mem_cons.mp hmem with rfl | hmem2
    · exact List.mem_append_left _ (hline n total)
    · exact List.mem_append_right _ (ih (n + 1) total hmem2)

/-- Specialization to format_ec2_details. -/
theorem mem_format_ec2_details (instances : List Instance) (inst : Instance)
    (hmem : inst ∈ instances) (line : String)
    (hline : ∀ i total, line ∈ formatInstanceLines i total inst) :
    line ∈ format_ec2_details instances :=
  mem_flatten_enumFrom line inst hline instances 1 instances.length hmem

/-- C9 counterexample: an instance whose Tags key holds an empty list has an
empty tag set, yet its rendering emits the Tags header with no "No tags
found" line — an empty tags section. -/
theorem no_tags_line_counterexample :
    taggedEmptyInstance.tags.getD [] = []
    ∧ "Tags:" ∈ format_ec2_details [taggedEmptyInstance]
    ∧ "  No tags found" ∉ format_ec2_details [taggedEmptyInstance] := by decide

/-- C9 amended: the explicit no-tags line is emitted exactly for instances
whose Tags key is absent; an instance with a present-but-empty tag list gets
an empty tags section instead. -/
theorem no_tags_line_when_tags_absent (instances : List Instance) (inst : Instance)
    (hmem : inst ∈ instances) (htags : inst.tags = none) :
    "  No tags found" ∈ format_ec2_details instances := by
  refine mem_format_ec2_details instances inst hmem _ ?_
  intro i total
  simp [formatInstanceLines, htags]

/-- C9 witness: the concrete instance without a Tags key. -/
theorem no_tags_line_witness :
    "  No tags found" ∈ format_ec2_details [untaggedInstance] :=
  no_tags_line_when_tags_absent [untaggedInstance] untaggedInstance (by decide) rfl

/-- C10: for every rendered instance without a Platform field, the platform
line is still emitted, with the literal default Linux/Unix. -/
theorem platform_line_default_when_absent (instances : List Instance) (inst : Instance)
    (hmem : inst ∈ instances) (hplat : inst.platform = none) :
    "Platform: Linux/Unix" ∈ format_ec2_details instances := by
  refine mem_format_ec2_details instances inst hmem _ ?_
  intro i total
  have hx : ("Platform: " ++ ("Linux/Unix" : String)) = "Platform: Linux/Unix" := rfl
  simp [formatInstanceLines, hplat, hx]

/-- C10 witness: the concrete instance, which has no Platform field. -/
theorem platform_line_default_witness :
    "Platform: Linux/Unix" ∈ format_ec2_details [webInstance] :=
  platform_line_default_when_absent [webInstance] webInstance (by decide) rfl

end Ec2Details
